import Mathlib

/-!
Verification development for the `create-activity` agent
(`src/strava_activity_agent.py`, `src/strava_client.py`, `src/writer_client.py`,
`src/exercise_knowledge.py`).

Modelling conventions:
* Python numbers (ints and floats) are modelled as `ℚ`.  Every numeric
  comparison performed by the program and examined here compares a value
  against a literal that was stored from the same literal (`0.3`, `0`), or
  tests the sign of an integer, so exact rational arithmetic agrees with the
  program's float arithmetic on all behaviours under study.
* Python strings are modelled as `String` / `List Char`; `str.lower` is
  modelled character-wise with `Char.toLower`, and the regex character
  classes `\d` / `\s` are modelled on their ASCII meaning, which covers the
  prompts in question.
* The three external services (Writer completions, Strava REST, Weaviate) are
  modelled as explicit outcome parameters: each embedded operation takes the
  observable outcome of its network call as an argument, mirroring exactly
  how the Python code branches on that outcome.
* `try/except` control flow is modelled by making each raising step an
  explicit alternative of the outcome type and following the handler that
  the Python exception semantics selects for it.
-/

namespace CreateActivity

/-! ## Python string primitives -/

/-- ASCII meaning of the regex class `\s` (Python whitespace). -/
def pyIsSpace (c : Char) : Bool :=
  c = ' ' || c = '\t' || c = '\n' || c = '\x0d' || c = '\x0b' || c = '\x0c'

/-- `prompt.lower()`: character-wise lower-casing, as a character list. -/
def pyLower (s : String) : List Char :=
  s.toList.map Char.toLower

/-- `int(...)` applied to a run of decimal digits (regex group `(\d+)`). -/
def natOfDigits (ds : List Char) : ℕ :=
  ds.foldl (fun n c => 10 * n + (c.toNat - 48)) 0

/-- `w` is a prefix of `l` (character comparison). -/
def listStarts : List Char → List Char → Bool
  | [], _ => true
  | _ :: _, [] => false
  | a :: as, b :: bs => a = b && listStarts as bs

/-- `w in l`: Python substring containment. -/
def listHas (w : List Char) : List Char → Bool
  | [] => w.isEmpty
  | c :: t => listStarts w (c :: t) || listHas w t

/-- `w in l` for a string needle against a lowered prompt. -/
def occurs (w : String) (l : List Char) : Bool :=
  listHas w.toList l

/-- `any(word in l for word in ws)`. -/
def anyOccurs (ws : List String) (l : List Char) : Bool :=
  ws.any (fun w => occurs w l)

/-- Python `str.strip()` (whitespace from both ends). -/
def pyStrip (l : List Char) : List Char :=
  ((l.dropWhile pyIsSpace).reverse.dropWhile pyIsSpace).reverse

/-- The two characters of the Python literal `'"\''`. -/
def quoteChars : List Char := [Char.ofNat 34, Char.ofNat 39]

/-- Python `str.strip('"\'')`: strip quote characters from both ends. -/
def pyStripQuotes (l : List Char) : List Char :=
  ((l.dropWhile (quoteChars.contains ·)).reverse.dropWhile (quoteChars.contains ·)).reverse

/-- Helper for `pySplit`: `acc` is the reversed current word. -/
def pySplitAux : List Char → List Char → List (List Char)
  | [], acc => if acc.isEmpty then [] else [acc.reverse]
  | c :: t, acc =>
    if pyIsSpace c then
      if acc.isEmpty then pySplitAux t [] else acc.reverse :: pySplitAux t []
    else pySplitAux t (c :: acc)

/-- Python `str.split()`: split on whitespace runs, dropping empty words. -/
def pySplit (l : List Char) : List (List Char) :=
  pySplitAux l []

/-- Python truthiness of an optional string (`None` and `""` are falsy). -/
def strTruthy : Option String → Bool
  | none => false
  | some s => !s.isEmpty

/-- Python truthiness of an optional string list (`None` and `[]` are falsy). -/
def listTruthy : Option (List String) → Bool
  | none => false
  | some l => !l.isEmpty

/-- Python truthiness of an optional number (`None`, `0` and `0.0` are falsy). -/
def numTruthy : Option ℚ → Bool
  | none => false
  | some q => q ≠ 0

/-- Python `int()` on a number: truncation toward zero. -/
def pyInt (q : ℚ) : ℤ :=
  Int.tdiv q.num q.den

/-! ## The fallback regexes of `_fallback_parse_prompt`

`re.search(r'(\d+)\s*(?:minute|min|hr|hour)', prompt_lower)` and
`re.search(r'(\d+(?:\.\d+)?)\s*(?:km|k|mile)', prompt_lower)`.

`re.search` yields the leftmost match.  At a candidate start the digit run is
consumed greedily; giving digits back can never help because neither `\s*`
nor any unit alternative can begin with a digit, so an anchored attempt is:
maximal digit run, then maximal whitespace run, then the first alternative
of the unit group that is a prefix of the remainder. -/

/-- The unit group `(?:minute|min|hr|hour)` tried in alternation order at the
head of `l`.  Returns `some b` on a match, where `b` records whether the
program's subsequent test `'hour' in match or 'hr' in match` is true (the
digits and whitespace of the match contain no letters, so that test holds
exactly when the matched alternative is `hr` or `hour`). -/
def durUnitAt (l : List Char) : Option Bool :=
  if listStarts "minute".toList l then some false
  else if listStarts "min".toList l then some false
  else if listStarts "hr".toList l then some true
  else if listStarts "hour".toList l then some true
  else none

/-- Anchored attempt of the duration regex at the head of `l`
(only called when the head is a digit): `(N, isHour)`. -/
def durTokenAt (l : List Char) : Option (ℕ × Bool) :=
  match durUnitAt ((l.dropWhile Char.isDigit).dropWhile pyIsSpace) with
  | some isHour => some (natOfDigits (l.takeWhile Char.isDigit), isHour)
  | none => none

/-- `re.search` for the duration regex: leftmost match over `l`. -/
def findDurationMatch : List Char → Option (ℕ × Bool)
  | [] => none
  | c :: rest =>
    if c.isDigit then
      match durTokenAt (c :: rest) with
      | some r => some r
      | none => findDurationMatch rest
    else findDurationMatch rest

/-- The unit group `(?:km|k|mile)` in alternation order; `some b` with `b`
recording the program's `'mile' in match` test (true exactly for the `mile`
alternative). -/
def distUnitAt (l : List Char) : Option Bool :=
  if listStarts "km".toList l then some false
  else if listStarts "k".toList l then some false
  else if listStarts "mile".toList l then some true
  else none

/-- Anchored attempt of the distance regex `(\d+(?:\.\d+)?)\s*(?:km|k|mile)`
at the head of `l` (head is a digit).  When the digit run is followed by
`.` and a digit the fractional part is consumed greedily; the match cannot
succeed without it in that case, since the remainder would then begin with
`.`, which neither `\s*` nor a unit alternative accepts. -/
def distTokenAt (l : List Char) : Option ℚ :=
  let ds := l.takeWhile Char.isDigit
  let rest := l.dropWhile Char.isDigit
  let (fs, rest') :=
    match rest with
    | '.' :: r =>
      if (r.takeWhile Char.isDigit).isEmpty then (([] : List Char), rest)
      else (r.takeWhile Char.isDigit, r.dropWhile Char.isDigit)
    | _ => ([], rest)
  match distUnitAt (rest'.dropWhile pyIsSpace) with
  | some isMile =>
    let v : ℚ := natOfDigits ds + (natOfDigits fs : ℚ) / (10 : ℚ) ^ fs.length
    some (if isMile then v * (1609 / 1000) else v)
  | none => none

/-- `re.search` for the distance regex: leftmost match over `l`, with the
`mile → ×1.609` conversion of `_fallback_parse_prompt` applied. -/
def findDistanceMatch : List Char → Option ℚ
  | [] => none
  | c :: rest =>
    if c.isDigit then
      match distTokenAt (c :: rest) with
      | some r => some r
      | none => findDistanceMatch rest
    else findDistanceMatch rest

/-! ## Exercise knowledge base (`exercise_knowledge.py`)

The Weaviate store is external; search results and per-sport suggestion
lists enter the model as explicit arguments.  The record shapes below follow
the dictionaries the Python code builds. -/

/-- A catalog record as seeded by `_populate_initial_data`. -/
structure ExerciseEntry where
  name : String
  sport_type : String
  synonyms : List String
  description : String
  muscle_groups : List String
  equipment : List String
  intensity_level : String
  location_types : List String
  keywords : List String
deriving Repr, DecidableEq

/-- A result dictionary of `search_exercises` (the fields the agent reads;
the remaining copied catalog fields are not consulted by the modelled code). -/
structure ExerciseMatch where
  name : String
  sport_type : String
  keywords : List String
  score : ℚ
deriving Repr, DecidableEq

/-- A suggestion dictionary as built by `get_exercise_suggestions`
(lines 324–332): exactly the keys `name`, `description`, `keywords`,
`equipment`, `location_types` — in particular it carries **no**
`muscle_groups` and **no** `intensity_level` key. -/
structure Suggestion where
  name : String
  description : String
  keywords : List String
  equipment : List String
  location_types : List String
deriving Repr, DecidableEq

/-- The projection `get_exercise_suggestions` applies to a catalog record. -/
def projectSuggestion (e : ExerciseEntry) : Suggestion :=
  { name := e.name
    description := e.description
    keywords := e.keywords
    equipment := e.equipment
    location_types := e.location_types }

/-- The context dictionary, restricted to the keys the modelled code reads or
writes.  `none` stands for an absent key or a `None` value. -/
structure Ctx where
  location : Option String := none
  time_of_day : Option String := none
  feeling : Option String := none
  intensity : Option String := none
  equipment : Option String := none
  keywords : Option (List String) := none
  exercise_keywords : Option (List String) := none
  muscle_groups : Option (List String) := none
deriving Repr, DecidableEq

/-- The empty context `{}`. -/
def emptyCtx : Ctx := {}

/-- The equipment loop of `enhance_activity_context`: the first equipment
string one of whose lower-cased words is a substring of the lower-cased
location (first match wins, list order). -/
def findEquip (loc : List Char) (equipment : List String) : Option String :=
  equipment.find? (fun eq => (pySplit (pyLower eq)).any (fun w => listHas w loc))

/-- Lines 364–366 of `enhance_activity_context`: attach the suggestion's
keywords as `exercise_keywords` when the context has no truthy `keywords`. -/
def enhanceKeywordsStep (exercise : Suggestion) (c : Ctx) : Ctx :=
  if listTruthy c.keywords then c
  else { c with exercise_keywords := some exercise.keywords }

/-- Lines 368–377 of `enhance_activity_context`: when the location is truthy
and equipment is listed, store the first equipment string whose lower-cased
words overlap the lower-cased location. -/
def enhanceEquipmentStep (exercise : Suggestion) (c : Ctx) : Ctx :=
  if strTruthy c.location && !exercise.equipment.isEmpty then
    match findEquip (pyLower (c.location.getD "")) exercise.equipment with
    | some eq => { c with equipment := some eq }
    | none => c
  else c

/-- Line 380 of `enhance_activity_context`:
`enhanced_context["muscle_groups"] = exercise.get("muscle_groups", [])` —
the suggestion dictionary has no `muscle_groups` key, so this stores `[]`. -/
def enhanceMuscleStep (c : Ctx) : Ctx :=
  { c with muscle_groups := some [] }

/-- Lines 383–384 of `enhance_activity_context`: when `intensity` is not
truthy, `enhanced_context["intensity"] = exercise.get("intensity_level")` —
the suggestion dictionary has no `intensity_level` key, so this stores
`None`. -/
def enhanceIntensityStep (c : Ctx) : Ctx :=
  if strTruthy c.intensity then c else { c with intensity := none }

/-- `ExerciseKnowledgeBase.enhance_activity_context` (lines 340–392).
`available` models `self.client` being non-`None`; `suggestions` is the
result of `get_exercise_suggestions(sport_type)`.  The four steps are the
four statement groups of the Python body, in order. -/
def enhance_activity_context (available : Bool) (suggestions : List Suggestion)
    (context : Ctx) : Ctx :=
  if !available then context
  else
    match suggestions with
    | [] => context
    | exercise :: _ =>
      enhanceIntensityStep
        (enhanceMuscleStep (enhanceEquipmentStep exercise (enhanceKeywordsStep exercise context)))

/-! ## Parsed activity data (`strava_activity_agent.py`) -/

/-- The `exercise_knowledge` metadata dictionary attached to a parse result.
The fallback path additionally stores `"fallback_method": True`; the model
path stores no such key (`fallback_method := none`). -/
structure ExerciseKnowledgeMeta where
  matched_exercise : String
  confidence_score : ℚ
  suggested_keywords : List String
  fallback_method : Option Bool
deriving Repr, DecidableEq

/-- The `parsed_data` dictionary.  `sport_type := none` stands for a missing
or `null` sport type (only the model path can produce that);
`duration_minutes` is always present on success. -/
structure ParsedData where
  sport_type : Option String
  duration_minutes : ℚ
  distance_km : Option ℚ
  name : Option String
  description_style : String
  confidence : ℚ
  context : Ctx
  exercise_knowledge : Option ExerciseKnowledgeMeta
deriving Repr, DecidableEq

/-- Outcome of `parse_activity_prompt` / `_fallback_parse_prompt`:
`{"status": "error", "message": m}` or `{"status": "success", "parsed_data": d}`. -/
inductive ParseResult where
  | err (message : String)
  | ok (parsed_data : ParsedData)
deriving Repr, DecidableEq

/-- The error message of the fallback parser when the duration regex finds no
match (line 525). -/
def durationMissingMsg : String :=
  "Could not find duration in your description. Please include how long you exercised (e.g., \x2730 minutes\x27)."

/-- The keyword chain of `_fallback_parse_prompt` (lines 550–567), applied to
the lower-cased prompt; `"Run"` is the default. -/
def keywordSportScan (pl : List Char) : String :=
  if anyOccurs ["bike", "cycling", "cycle", "rode"] pl then "Ride"
  else if anyOccurs ["swim", "swimming", "pool"] pl then "Swim"
  else if anyOccurs ["hike", "hiking", "trail"] pl then "Hike"
  else if anyOccurs ["walk", "walking"] pl then "Walk"
  else if anyOccurs ["yoga", "stretching"] pl then "Yoga"
  else if anyOccurs ["weight", "lifting", "gym", "strength"] pl then "WeightTraining"
  else if anyOccurs ["rowing", "row"] pl then "Rowing"
  else if anyOccurs ["ski", "skiing"] pl then "CrossCountrySkiing"
  else if anyOccurs ["elliptical"] pl then "Elliptical"
  else "Run"

/-- Sport determination of `_fallback_parse_prompt` (lines 539–567): prefer
the top search match, else the keyword chain. -/
def fallbackSport (exMatches : List ExerciseMatch) (pl : List Char) : String :=
  match exMatches with
  | m :: _ => m.sport_type
  | [] => keywordSportScan pl

/-- Coarse context extraction of `_fallback_parse_prompt` (lines 569–586). -/
def fallbackContext (pl : List Char) : Ctx :=
  { time_of_day :=
      if anyOccurs ["morning", "am"] pl then some "morning"
      else if anyOccurs ["evening", "night", "pm"] pl then some "evening"
      else if anyOccurs ["afternoon"] pl then some "afternoon"
      else none
    location :=
      if anyOccurs ["park", "outdoor", "outside"] pl then some "outdoor"
      else if anyOccurs ["gym", "indoor"] pl then some "gym"
      else none
    feeling :=
      if anyOccurs ["felt great", "amazing", "awesome", "fantastic"] pl then some "great"
      else if anyOccurs ["tough", "hard", "difficult", "challenging"] pl then some "challenging"
      else none }

/-- The successful `parsed_data` of `_fallback_parse_prompt` (lines 527–617),
given the duration match `(n, isHour)`.  `suggestFor` models
`get_exercise_suggestions` and `available` the Weaviate client being up. -/
def fallbackOk (exMatches : List ExerciseMatch) (suggestFor : Option String → List Suggestion)
    (available : Bool) (prompt : String) (n : ℕ) (isHour : Bool) : ParsedData :=
  let pl := pyLower prompt
  let sport := fallbackSport exMatches pl
  let ctx0 := fallbackContext pl
  { sport_type := some sport
    duration_minutes := if isHour then (n : ℚ) * 60 else (n : ℚ)
    distance_km := findDistanceMatch pl
    name := none
    description_style := "casual"
    confidence := 3 / 10
    context :=
      match exMatches with
      | [] => ctx0
      | _ :: _ => enhance_activity_context available (suggestFor (some sport)) ctx0
    exercise_knowledge :=
      match exMatches with
      | [] => none
      | m :: _ => some ⟨m.name, m.score, m.keywords, some true⟩ }

/-- `_fallback_parse_prompt` (lines 515–621).  `exMatches` is the result of
`search_exercises(prompt)` (empty when the store is down or nothing
exMatches). -/
def fallbackParse (exMatches : List ExerciseMatch) (suggestFor : Option String → List Suggestion)
    (available : Bool) (prompt : String) : ParseResult :=
  match findDurationMatch (pyLower prompt) with
  | none => .err durationMissingMsg
  | some (n, isHour) => .ok (fallbackOk exMatches suggestFor available prompt n isHour)

/-! ## The model path of `parse_activity_prompt` (lines 371–513)

The outcome of the completion call enters as an explicit argument shaped
after the places where the Python code branches or raises. -/

/-- A JSON value in the `duration_minutes` position, as far as the validation
`isinstance(x, (int, float)) and x > 0` distinguishes values.  Python `bool`
is a subclass of `int`, so booleans pass the `isinstance` test with their
numeric value. -/
inductive DurVal where
  | num (q : ℚ)
  | boolean (b : Bool)
  | str (s : String)
  | arr
  | null
deriving Repr, DecidableEq

/-- The validation of lines 471–472: `some q` when
`isinstance(d, (int, float)) and d > 0`, `none` when the `ValueError`
(or a missing key) sends control to the outer handler. -/
def validDuration : Option DurVal → Option ℚ
  | some (.num q) => if 0 < q then some q else none
  | some (.boolean b) => if 0 < (if b then (1 : ℚ) else 0) then some (if b then 1 else 0) else none
  | _ => none

/-- The JSON object the model returned (the keys lines 474–496 read).
Absent keys are `none`. -/
structure AIObj where
  sport_type : Option String := none
  duration_minutes : Option DurVal := none
  distance_km : Option ℚ := none
  name : Option String := none
  description_style : Option String := none
  confidence : Option ℚ := none
  context : Option Ctx := none
deriving Repr, DecidableEq

/-- What `json.loads` yields on the (fence-cleaned) completion content. -/
inductive ContentParse where
  /-- `json.JSONDecodeError`: caught at line 498, routes to fallback. -/
  | decodeError
  /-- valid JSON that is not an object: `.get` raises `AttributeError`,
  caught at line 503, routes to fallback. -/
  | nonObject
  | object (o : AIObj)
deriving Repr, DecidableEq

/-- `choices[0]` of the response envelope. -/
inductive AgentChoice where
  /-- `["message"]["content"]` raises `KeyError`/`TypeError`: caught at
  line 503, routes to fallback. -/
  | missingContent
  /-- the content string, paired with what `json.loads` yields on it after
  code-fence cleaning. -/
  | content (raw : String) (parse : ContentParse)
deriving Repr, DecidableEq

/-- The decoded response body. -/
inductive AgentBody where
  /-- `response.json()` raises: caught at line 503, routes to fallback. -/
  | notJson
  /-- a JSON object; an absent or empty `"choices"` key is modelled as the
  empty list (both take the branch at line 449). -/
  | envelope (choices : List AgentChoice)
deriving Repr, DecidableEq

/-- The observable outcome of `await self.writer_client.client.post(...)`. -/
inductive AgentResponse where
  /-- the call itself raised (timeout, connection error):
  caught at line 511, routes to fallback. -/
  | exn
  | response (status : ℕ) (body : AgentBody)
deriving Repr, DecidableEq

/-- Direct error of line 451. -/
def envelopeErrorMsg : String := "AI returned invalid response structure"

/-- Direct error of line 458. -/
def emptyContentMsg : String := "AI returned empty response"

/-- The successful `parsed_data` of the model path (lines 468–496): defaults
filled, context enhanced and metadata attached when `search_exercises`
found something. -/
def aiParsed (exMatches : List ExerciseMatch) (suggestFor : Option String → List Suggestion)
    (available : Bool) (o : AIObj) (q : ℚ) : ParsedData :=
  let ctx0 := o.context.getD emptyCtx
  { sport_type := o.sport_type
    duration_minutes := q
    distance_km := o.distance_km
    name := o.name
    description_style := o.description_style.getD "casual"
    confidence := o.confidence.getD (5 / 10)
    context :=
      match exMatches with
      | [] => ctx0
      | _ :: _ => enhance_activity_context available (suggestFor o.sport_type) ctx0
    exercise_knowledge :=
      match exMatches with
      | [] => none
      | m :: _ => some ⟨m.name, m.score, m.keywords, none⟩ }

/-- `parse_activity_prompt` (lines 371–513).  `exMatches` is the result of
`search_exercises(prompt)` computed at line 375 and reused by the fallback
(the store is static, so the second call at line 540 returns the same
list). -/
def parse_activity_prompt (exMatches : List ExerciseMatch)
    (suggestFor : Option String → List Suggestion) (available : Bool)
    (prompt : String) (resp : AgentResponse) : ParseResult :=
  match resp with
  | .exn => fallbackParse exMatches suggestFor available prompt
  | .response status body =>
    if status = 200 then
      match body with
      | .notJson => fallbackParse exMatches suggestFor available prompt
      | .envelope [] => .err envelopeErrorMsg
      | .envelope (.missingContent :: _) => fallbackParse exMatches suggestFor available prompt
      | .envelope (.content raw parse :: _) =>
        if (pyStrip raw.toList).isEmpty then .err emptyContentMsg
        else
          match parse with
          | .decodeError => fallbackParse exMatches suggestFor available prompt
          | .nonObject => fallbackParse exMatches suggestFor available prompt
          | .object o =>
            match validDuration o.duration_minutes with
            | none => fallbackParse exMatches suggestFor available prompt
            | some q => .ok (aiParsed exMatches suggestFor available o q)
    else fallbackParse exMatches suggestFor available prompt

/-! ## Writer generators (`writer_client.py`, lines 413–533 and 535–657)

The non-ASCII characters in the fallback strings below reproduce the source
file's literals code point for code point (the file stores them
double-encoded). -/

/-- `choices[0]` of a generation response. -/
inductive ChatChoice where
  /-- extracting `["message"]["content"]` raises: caught by the inner
  handler, falls through to the templated fallback. -/
  | missingContent
  | content (s : String)
deriving Repr, DecidableEq

/-- Decoded body of a generation response. -/
inductive ChatBody where
  /-- `response.json()` raises: caught by the inner handler. -/
  | notJson
  /-- absent or empty `"choices"` is the empty list (the guard
  `"choices" in data and len(...) > 0` then falls through). -/
  | envelope (choices : List ChatChoice)
deriving Repr, DecidableEq

/-- Observable outcome of a generation `client.post`. -/
inductive ChatOutcome where
  /-- the call itself raised: caught by the function's outer handler. -/
  | exn
  | response (status : ℕ) (body : ChatBody)
deriving Repr, DecidableEq

/-- Whether the outcome delivers usable content (lines 508–516 / 625–633). -/
def chatDelivers : ChatOutcome → Bool
  | .response 200 (.envelope (.content _ :: _)) => true
  | _ => false

/-- `str(n)` for the integer `duration_minutes`. -/
def durStr (n : ℤ) : String := toString n

/-- `sport_type.lower()` as a `String`. -/
def lowerStr (s : String) : String := String.mk (pyLower s)

/-- The context-aware description fallback (lines 522–529). -/
def descContextFallback (sport_type : String) (duration_minutes : ℤ) (context : Ctx) : String :=
  let parts :=
    ["Great " ++ lowerStr sport_type ++ " session! ğŸ’ª " ++
       durStr duration_minutes ++ " minutes"]
    ++ (match context.location with
        | some l => if l.isEmpty then [] else ["at " ++ l]
        | none => [])
    ++ (match context.feeling with
        | some f => if f.isEmpty then [] else ["- " ++ f ++ "!"]
        | none => [])
  String.intercalate " " parts

/-- The description returned when the generation call itself raises
(line 533). -/
def descExnFallback (sport_type : String) (duration_minutes : ℤ) : String :=
  "Great " ++ lowerStr sport_type ++ " session! ğŸ’ª Completed " ++
    durStr duration_minutes ++ " minutes of awesome training."

/-- `generate_activity_description_with_context` (lines 413–533).
`style`, `distance_km` and most of `context` only shape the prompt sent to
the model, not the returned string. -/
def generate_activity_description_with_context (sport_type : String)
    (duration_minutes : ℤ) (_distance_km : Option ℚ) (_style : String) (context : Ctx)
    (resp : ChatOutcome) : String :=
  match resp with
  | .exn => descExnFallback sport_type duration_minutes
  | .response status body =>
    if status = 200 then
      match body with
      | .notJson => descContextFallback sport_type duration_minutes context
      | .envelope [] => descContextFallback sport_type duration_minutes context
      | .envelope (.missingContent :: _) => descContextFallback sport_type duration_minutes context
      | .envelope (.content s :: _) => String.mk (pyStripQuotes (pyStrip s.toList))
    else descContextFallback sport_type duration_minutes context

/-- The `fallback_jokes` dictionary with its `.get` default (lines 640–653). -/
def jokeFallback (sport_type : String) : String :=
  match sport_type with
  | "Run" => "Running Late (But On Purpose) ğŸƒâ€â™‚ï¸â°"
  | "Ride" => "Wheely Good Workout ğŸš´â€â™‚ï¸ğŸ˜„"
  | "Swim" => "Just Keep Swimming (Thanks Dory) ğŸ ğŸŠâ€â™‚ï¸"
  | "Hike" => "Taking a Walk on the Wild Side ğŸ¥¾ğŸŒ²"
  | "Walk" => "Walking My Way to Greatness ğŸš¶â€â™‚ï¸âœ¨"
  | "WeightTraining" => "Pumping Iron & Dad Jokes ğŸ‹ï¸â€â™‚ï¸ğŸ˜‚"
  | "Yoga" => "Finding My Inner Peace (& Outer Pretzel) ğŸ§˜â€â™€ï¸ğŸ¥¨"
  | "CrossCountrySkiing" => "Ski-ing My Way to Fitness â›·ï¸ğŸ˜„"
  | "Rowing" => "Row, Row, Row Your Gains ğŸš£â€â™‚ï¸ğŸ’ª"
  | "Elliptical" => "Going Nowhere Fast (But Loving It) ğŸ”„ğŸ˜…"
  | _ => sport_type ++ " & Giggles ğŸ˜„ğŸ’ª"

/-- The name returned when the generation call itself raises (line 657). -/
def nameExnFallback (sport_type : String) : String :=
  sport_type ++ " Comedy Hour ğŸ˜‚ğŸ’ª"

/-- `generate_activity_name_with_context` (lines 535–657). -/
def generate_activity_name_with_context (sport_type : String) (_duration_minutes : ℤ)
    (_distance_km : Option ℚ) (_context : Ctx) (resp : ChatOutcome) : String :=
  match resp with
  | .exn => nameExnFallback sport_type
  | .response status body =>
    if status = 200 then
      match body with
      | .notJson => jokeFallback sport_type
      | .envelope [] => jokeFallback sport_type
      | .envelope (.missingContent :: _) => jokeFallback sport_type
      | .envelope (.content s :: _) => String.mk (pyStripQuotes (pyStrip s.toList))
    else jokeFallback sport_type

/-! ## The agent workflow (`strava_activity_agent.py`, lines 623–713) -/

/-- The `activity_data` dictionary assembled at lines 687–698.
`elapsed_time = duration_minutes * 60`; `distance` is only added when
`distance_km` is truthy (`if distance_km:`), i.e. present **and** nonzero. -/
structure ActivityData where
  name : String
  sport_type : String
  start_date_local : String
  elapsed_time : ℤ
  description : String
  trainer : Bool
  commute : Bool
  distance : Option ℚ
deriving Repr, DecidableEq

/-- Lines 687–698: the record `create_quick_activity_with_ai` submits. -/
def quickActivityData (name sport_type now description : String)
    (duration_minutes : ℤ) (distance_km : Option ℚ) : ActivityData :=
  { name := name
    sport_type := sport_type
    start_date_local := now
    elapsed_time := duration_minutes * 60
    description := description
    trainer := false
    commute := false
    distance := if numTruthy distance_km then (distance_km.map (· * 1000)) else none }

/-- `parsing_info` attached at lines 653–657. -/
structure ParsingInfo where
  original_prompt : String
  parsed_data : ParsedData
  confidence : ℚ
deriving Repr, DecidableEq

/-- The discriminated result of the two workflow entry points.  `α` is the
shape of whatever the Strava API returned for the created activity. -/
inductive WorkflowResult (α : Type) where
  | success (activity : α) (ai_name ai_description : String) (parsing_info : Option ParsingInfo)
  | error (message : String)
deriving Repr, DecidableEq

/-- Lines 700–709: wrap the Strava call's outcome into the workflow result
(the handler at line 711 turns a raised exception into an error result). -/
def submitResult {α : Type} (nm desc : String) (x : Except String α) : WorkflowResult α :=
  match x with
  | .ok a => .success a nm desc none
  | .error e => .error e

/-- `create_quick_activity_with_ai` (lines 665–713).  `strava` models
`self.strava_client.create_activity`: `.error e` when that call (or
anything around it) raises, in which case the handler at line 711 returns
an error result. -/
def create_quick_activity_with_ai {α : Type} (sport_type : String) (duration_minutes : ℤ)
    (distance_km : Option ℚ) (name : Option String) (style : String) (context : Ctx)
    (nameResp descResp : ChatOutcome) (now : String)
    (strava : ActivityData → Except String α) : WorkflowResult α :=
  let nm :=
    if strTruthy name then name.getD ""
    else generate_activity_name_with_context sport_type duration_minutes distance_km context nameResp
  let desc :=
    generate_activity_description_with_context sport_type duration_minutes distance_km style
      context descResp
  submitResult nm desc
    (strava (quickActivityData nm sport_type now desc duration_minutes distance_km))

/-- The acceptance gate of line 635: `parsed_data.get("confidence", 0) < 0.3`
(both parse paths always store a `confidence` key). -/
def confidenceRejected (d : ParsedData) : Bool :=
  decide (d.confidence < 3 / 10)

/-- The rejection message of lines 636–639. -/
def gateMessage : String :=
  "Unable to understand the activity details from your prompt. Please be more specific about the activity type and duration."

/-- `create_activity_from_prompt` (lines 623–663).  A parse result whose
`sport_type` is missing makes `parsed_data["sport_type"]` raise `KeyError`,
which the handler at line 661 turns into an error result whose message is
`str(e)`, the quoted key. -/
def create_activity_from_prompt {α : Type} (exMatches : List ExerciseMatch)
    (suggestFor : Option String → List Suggestion) (available : Bool) (prompt : String)
    (aiResp : AgentResponse) (nameResp descResp : ChatOutcome) (now : String)
    (strava : ActivityData → Except String α) : WorkflowResult α :=
  match parse_activity_prompt exMatches suggestFor available prompt aiResp with
  | .err m => .error m
  | .ok d =>
    if confidenceRejected d then .error gateMessage
    else
      match d.sport_type with
      | none => .error "\x27sport_type\x27"
      | some sp =>
        match create_quick_activity_with_ai sp (pyInt d.duration_minutes) d.distance_km d.name
            d.description_style d.context nameResp descResp now strava with
        | .success a n ds _ => .success a n ds (some ⟨prompt, d, d.confidence⟩)
        | .error e => .error e

/-! ## Strava client (`strava_client.py`) -/

/-- A JSON-ish value stored in an activity-data dictionary. -/
inductive PyVal where
  | str (s : String)
  | num (q : ℚ)
  | boolean (b : Bool)
  | null
deriving Repr, DecidableEq

/-- An activity-data dictionary: association list keyed by field name
(`k not in d` is `lookup k d = none`; a key may be present with value
`null`). -/
def ActivityDict : Type := List (String × PyVal)

/-- `required_fields` of line 233. -/
def requiredFields : List String :=
  ["name", "sport_type", "start_date_local", "elapsed_time"]

/-- `optional_fields` of lines 249–251. -/
def optionalFields : List String :=
  ["type", "description", "distance", "trainer", "commute"]

/-- Result of `create_activity` up to the network boundary: either the
client-side `ValueError` (raised before any authenticated request), or the
payload handed to `_make_authenticated_request`. -/
inductive CreateActivityCall where
  | validationError (message : String)
  | request (payload : List (String × PyVal))
deriving Repr, DecidableEq

/-- `StravaAPIClient.create_activity` (lines 220–266) up to the network
boundary: the `for field in required_fields` loop raises on the first
missing field, else the payload of lines 241–255 is built and submitted. -/
def strava_create_activity (activity_data : ActivityDict) : CreateActivityCall :=
  match requiredFields.find? (fun f => (activity_data.lookup f).isNone) with
  | some f => .validationError ("Missing required field: " ++ f)
  | none =>
    .request
      ((requiredFields.map fun f => (f, (activity_data.lookup f).getD .null))
        ++ optionalFields.filterMap fun f => (activity_data.lookup f).map ((f, ·)))

/-- The token triple owned by a `StravaAPIClient` instance. -/
structure TokenState where
  access_token : Option String
  refresh_token : Option String
  token_expires_at : Option ℤ
deriving Repr, DecidableEq

/-- The decoded token-endpoint body; keys may be absent. -/
structure TokenJson where
  access_token : Option String := none
  refresh_token : Option String := none
  expires_at : Option ℤ := none
deriving Repr, DecidableEq

/-- Observable outcome of the `requests.post(...)` + `raise_for_status()` +
`response.json()` sequence.  `transportError` covers every
`requests.exceptions.RequestException`: connection errors, timeouts,
non-2xx via `raise_for_status`, and an undecodable JSON body. -/
inductive TokenHttpOutcome where
  | transportError (e : String)
  | jsonBody (td : TokenJson)
deriving Repr, DecidableEq

/-- The three sequential assignments of lines 97–99 / 140–142, with Python
`KeyError` semantics: a missing key aborts the sequence, leaving the
assignments made so far in place. -/
def storeTokens (st : TokenState) (td : TokenJson) : TokenState × Option String :=
  match td.access_token with
  | none => (st, some "\x27access_token\x27")
  | some a =>
    let st1 := { st with access_token := some a }
    match td.refresh_token with
    | none => (st1, some "\x27refresh_token\x27")
    | some r =>
      let st2 := { st1 with refresh_token := some r }
      match td.expires_at with
      | none => (st2, some "\x27expires_at\x27")
      | some x => ({ st2 with token_expires_at := some x }, none)

/-- `exchange_token` (lines 65–106): resulting client state, and either the
token data or the exception surfaced to the caller. -/
def exchange_token (st : TokenState) (resp : TokenHttpOutcome) :
    TokenState × Except String TokenJson :=
  match resp with
  | .transportError e => (st, .error ("Failed to exchange authorization code: " ++ e))
  | .jsonBody td =>
    match storeTokens st td with
    | (st', none) => (st', .ok td)
    | (st', some k) => (st', .error k)

/-- `refresh_access_token` (lines 108–149). -/
def refresh_access_token (st : TokenState) (resp : TokenHttpOutcome) :
    TokenState × Except String TokenJson :=
  match st.refresh_token with
  | none => (st, .error "No refresh token available")
  | some _ =>
    match resp with
    | .transportError e => (st, .error ("Failed to refresh access token: " ++ e))
    | .jsonBody td =>
      match storeTokens st td with
      | (st', none) => (st', .ok td)
      | (st', some k) => (st', .error k)

/-! ## Spec-side definitions

These two definitions follow the *specification's* wording (not the code)
and exist to be compared with the embedded code. -/

/-- Modelled from the spec's words (§4.1 / claim C5): the ordered keyword
scan "bike/cycling/cycle/rode → Ride; swim/pool → Swim; hike/trail → Hike;
walk → Walk; yoga/stretching → Yoga; weight/lifting/gym/strength →
WeightTraining; rowing/row → Rowing; ski → CrossCountrySkiing; elliptical →
Elliptical; default → Run", first matching category winning. -/
def specSportKeywordScan (pl : List Char) : String :=
  if anyOccurs ["bike", "cycling", "cycle", "rode"] pl then "Ride"
  else if anyOccurs ["swim", "pool"] pl then "Swim"
  else if anyOccurs ["hike", "trail"] pl then "Hike"
  else if anyOccurs ["walk"] pl then "Walk"
  else if anyOccurs ["yoga", "stretching"] pl then "Yoga"
  else if anyOccurs ["weight", "lifting", "gym", "strength"] pl then "WeightTraining"
  else if anyOccurs ["rowing", "row"] pl then "Rowing"
  else if anyOccurs ["ski"] pl then "CrossCountrySkiing"
  else if anyOccurs ["elliptical"] pl then "Elliptical"
  else "Run"

/-- The four duration unit tokens of claim C2. -/
def unitTokens : List (List Char) :=
  ["minute".toList, "min".toList, "hr".toList, "hour".toList]

/-- Modelled from the claim's words (C2): the lower-cased prompt contains an
integer `n` (a maximal digit run) immediately followed, up to whitespace,
by one of the unit tokens; `isHour` records whether that unit is
`hr`/`hour`. -/
def containsDurationToken (p : String) (n : ℕ) (isHour : Bool) : Prop :=
  ∃ pre ds ws u post : List Char,
    pyLower p = pre ++ (ds ++ (ws ++ (u ++ post))) ∧
    ds ≠ [] ∧
    (∀ c ∈ ds, c.isDigit = true) ∧
    (∀ c ∈ ws, pyIsSpace c = true) ∧
    (pre.getLast?.all fun c => !c.isDigit) = true ∧
    u ∈ unitTokens ∧
    natOfDigits ds = n ∧
    isHour = (u = "hr".toList || u = "hour".toList)

/-- Search-result list of an unavailable (or unmatched) knowledge store. -/
def noMatches : List ExerciseMatch := []

/-- Suggestion oracle of an unavailable knowledge store. -/
def noSuggestions : Option String → List Suggestion := fun _ => []

/-! ## Claim C3 -/

/-- **C3.** For every prompt in which the fallback duration regex finds no
match, the fallback parser returns `status=error` with the
missing-duration message, and never a success (so no duration is ever
fabricated). -/
theorem c3_no_duration_token_is_error (exMatches : List ExerciseMatch)
    (suggestFor : Option String → List Suggestion) (available : Bool) (prompt : String)
    (h : findDurationMatch (pyLower prompt) = none) :
    fallbackParse exMatches suggestFor available prompt = .err durationMissingMsg ∧
      ∀ d, fallbackParse exMatches suggestFor available prompt ≠ .ok d := by
  unfold fallbackParse
  rw [h]
  exact ⟨rfl, fun d hd => ParseResult.noConfusion hd⟩

/-- Witness for C3 at the spec's end-to-end scenario prompt. -/
theorem c3_witness :
    fallbackParse noMatches noSuggestions false "did some lifting at the gym" =
      .err durationMissingMsg :=
  (c3_no_duration_token_is_error noMatches noSuggestions false
    "did some lifting at the gym" (by decide)).1

/-! ## Claim C8 -/

/-- **C8.** If any required field (`name`, `sport_type`, `start_date_local`,
`elapsed_time`) is absent from `activity_data`, `create_activity` raises a
"Missing required field" `ValueError` (for the first missing field, in
declaration order) and no authenticated request is built or sent. -/
theorem c8_missing_required_field_rejected (activity_data : ActivityDict)
    (f : String) (hf : f ∈ requiredFields) (habs : activity_data.lookup f = none) :
    ∃ g, g ∈ requiredFields ∧ activity_data.lookup g = none ∧
      strava_create_activity activity_data = .validationError ("Missing required field: " ++ g) ∧
      ∀ payload, strava_create_activity activity_data ≠ .request payload := by
  have hsome : (requiredFields.find? (fun g => (activity_data.lookup g).isNone)).isSome := by
    rw [List.find?_isSome]
    exact ⟨f, hf, by rw [habs]; rfl⟩
  obtain ⟨g, hg⟩ := Option.isSome_iff_exists.mp hsome
  refine ⟨g, List.mem_of_find?_eq_some hg, ?_, ?_, ?_⟩
  · have := List.find?_some hg
    simpa using this
  · unfold strava_create_activity
    rw [hg]
  · intro payload hpay
    unfold strava_create_activity at hpay
    rw [hg] at hpay
    exact CreateActivityCall.noConfusion hpay

/-- Witness for C8: the spec's scenario of a record missing `elapsed_time`. -/
theorem c8_witness :
    ∃ g, g ∈ requiredFields ∧
      (([("name", PyVal.str "Morning Run"), ("sport_type", PyVal.str "Run"),
         ("start_date_local", PyVal.str "2026-10-12T08:00:00")] : ActivityDict).lookup g
        = none) ∧
      strava_create_activity
          [("name", PyVal.str "Morning Run"), ("sport_type", PyVal.str "Run"),
           ("start_date_local", PyVal.str "2026-10-12T08:00:00")]
        = .validationError ("Missing required field: " ++ g) ∧
      ∀ payload,
        strava_create_activity
            [("name", PyVal.str "Morning Run"), ("sport_type", PyVal.str "Run"),
             ("start_date_local", PyVal.str "2026-10-12T08:00:00")]
          ≠ .request payload :=
  c8_missing_required_field_rejected _ "elapsed_time" (by decide) (by decide)

/-! ## Claim C10 -/

/-- **C10.** When `exchange_token` or `refresh_access_token` fails with a
transport error (`requests.exceptions.RequestException` anywhere in the
post / raise_for_status / json sequence), the call surfaces an exception and
the stored `access_token`, `refresh_token` and `token_expires_at` keep their
prior values. -/
theorem c10_transport_error_leaves_tokens_unchanged (st : TokenState) (e : String) :
    (exchange_token st (.transportError e)).1 = st ∧
      (exchange_token st (.transportError e)).2 =
        .error ("Failed to exchange authorization code: " ++ e) ∧
      (refresh_access_token st (.transportError e)).1 = st ∧
      ∃ m, (refresh_access_token st (.transportError e)).2 = .error m := by
  refine ⟨rfl, rfl, ?_, ?_⟩ <;>
    · unfold refresh_access_token
      cases st.refresh_token <;> simp

/-! ## Claim C9 -/

/-- The keywords step does not touch `intensity`. -/
lemma enhanceKeywordsStep_intensity (e : Suggestion) (c : Ctx) :
    (enhanceKeywordsStep e c).intensity = c.intensity := by
  unfold enhanceKeywordsStep; split <;> rfl

/-- The equipment step does not touch `intensity`. -/
lemma enhanceEquipmentStep_intensity (e : Suggestion) (c : Ctx) :
    (enhanceEquipmentStep e c).intensity = c.intensity := by
  unfold enhanceEquipmentStep
  split
  · split <;> rfl
  · rfl

/-- The intensity step does not touch `muscle_groups`. -/
lemma enhanceIntensityStep_muscle (c : Ctx) :
    (enhanceIntensityStep c).muscle_groups = c.muscle_groups := by
  unfold enhanceIntensityStep; split <;> rfl

/-- Field characterization of the intensity step. -/
lemma enhanceIntensityStep_intensity (c : Ctx) :
    (enhanceIntensityStep c).intensity =
      if strTruthy c.intensity then c.intensity else none := by
  unfold enhanceIntensityStep
  split <;> rfl

/-- With suggestions present, `enhance_activity_context` always sets
`muscle_groups` to `some []` (the suggestion dictionary has no
`muscle_groups` key). -/
lemma enhance_muscle_groups (s : Suggestion) (rest : List Suggestion) (c : Ctx) :
    (enhance_activity_context true (s :: rest) c).muscle_groups = some [] := by
  show (enhanceIntensityStep (enhanceMuscleStep _)).muscle_groups = some []
  rw [enhanceIntensityStep_muscle]
  rfl

/-- With suggestions present, the resulting `intensity` is the input's when
that is truthy, else `none`. -/
lemma enhance_intensity (s : Suggestion) (rest : List Suggestion) (c : Ctx) :
    (enhance_activity_context true (s :: rest) c).intensity =
      if strTruthy c.intensity then c.intensity else none := by
  show (enhanceIntensityStep (enhanceMuscleStep (enhanceEquipmentStep s
    (enhanceKeywordsStep s c)))).intensity = _
  rw [enhanceIntensityStep_intensity]
  have h : (enhanceMuscleStep (enhanceEquipmentStep s (enhanceKeywordsStep s c))).intensity
      = c.intensity := by
    show (enhanceEquipmentStep s (enhanceKeywordsStep s c)).intensity = c.intensity
    rw [enhanceEquipmentStep_intensity, enhanceKeywordsStep_intensity]
  rw [h]

/-- A truthy optional string survives the truthiness test after being kept. -/
lemma strTruthy_ite (o : Option String) :
    strTruthy (if strTruthy o then o else none) = strTruthy o := by
  by_cases h : strTruthy o
  · rw [if_pos h]
  · rw [if_neg h]
    rw [Bool.not_eq_true] at h
    rw [h]
    rfl

/-- **C9 (amended).** `enhance_activity_context` is idempotent with respect
to `muscle_groups` and `intensity`: applying it twice with the same
suggestion list (hence the same `sport_type`) gives the same values for
those two fields as applying it once.  However, whenever suggestions exist,
`muscle_groups` is set to the *empty* list and an unset `intensity` is set
to `None`, because the suggestion records built by
`get_exercise_suggestions` carry no `muscle_groups` or `intensity_level`
key. -/
theorem c9_enhance_idempotent (available : Bool) (suggestions : List Suggestion) (c : Ctx) :
    ((enhance_activity_context available suggestions
        (enhance_activity_context available suggestions c)).muscle_groups =
      (enhance_activity_context available suggestions c).muscle_groups ∧
     (enhance_activity_context available suggestions
        (enhance_activity_context available suggestions c)).intensity =
      (enhance_activity_context available suggestions c).intensity) ∧
    (∀ s rest, available = true → suggestions = s :: rest →
      (enhance_activity_context available suggestions c).muscle_groups = some [] ∧
      (strTruthy c.intensity = false →
        (enhance_activity_context available suggestions c).intensity = none)) := by
  constructor
  · cases available with
    | false => exact ⟨rfl, rfl⟩
    | true =>
      cases suggestions with
      | nil => exact ⟨rfl, rfl⟩
      | cons s rest =>
        refine ⟨?_, ?_⟩
        · rw [enhance_muscle_groups, enhance_muscle_groups]
        · rw [enhance_intensity, enhance_intensity, strTruthy_ite]
          by_cases h : strTruthy c.intensity <;> simp [h]
  · rintro s rest rfl rfl
    refine ⟨enhance_muscle_groups s rest c, fun h => ?_⟩
    rw [enhance_intensity, h]
    rfl

/-- The `Running` catalog record seeded by `_populate_initial_data`
(lines 153–163 of `exercise_knowledge.py`). -/
def runningEntry : ExerciseEntry :=
  { name := "Running"
    sport_type := "Run"
    synonyms := ["jogging", "sprinting", "trail running", "road running", "treadmill running"]
    description := "Cardiovascular exercise involving rapid foot movement"
    muscle_groups := ["legs", "core", "cardiovascular"]
    equipment := ["running shoes", "treadmill", "track"]
    intensity_level := "variable"
    location_types := ["outdoor", "gym", "track", "trail", "park"]
    keywords := ["cardio", "endurance", "pace", "distance", "marathon", "5k", "10k"] }

/-- Counterexample for C9 as stated: for sport type `Run` the top suggestion
stems from the catalog record with muscle groups
`["legs", "core", "cardiovascular"]` and intensity level `"variable"`, yet
the enhanced context's `muscle_groups` is the empty list (not the
suggestion's muscle groups) and its unset `intensity` becomes `None` (not
the suggestion's intensity level). -/
theorem c9_counterexample :
    (enhance_activity_context true [projectSuggestion runningEntry] emptyCtx).muscle_groups
        = some [] ∧
      runningEntry.muscle_groups = ["legs", "core", "cardiovascular"] ∧
      (enhance_activity_context true [projectSuggestion runningEntry] emptyCtx).muscle_groups
        ≠ some runningEntry.muscle_groups ∧
      strTruthy emptyCtx.intensity = false ∧
      (enhance_activity_context true [projectSuggestion runningEntry] emptyCtx).intensity
        = none ∧
      runningEntry.intensity_level = "variable" := by
  refine ⟨rfl, rfl, by decide, rfl, rfl, rfl⟩

/-- Witness for C9 (amended) at a concrete suggestion list and context. -/
theorem c9_witness :
    ((enhance_activity_context true [projectSuggestion runningEntry]
        (enhance_activity_context true [projectSuggestion runningEntry] emptyCtx)).muscle_groups
      = (enhance_activity_context true [projectSuggestion runningEntry] emptyCtx).muscle_groups) ∧
    (enhance_activity_context true [projectSuggestion runningEntry] emptyCtx).muscle_groups
      = some [] := by
  have h := c9_enhance_idempotent true [projectSuggestion runningEntry] emptyCtx
  exact ⟨h.1.1, (h.2 _ _ rfl rfl).1⟩

/-! ## Claim C5 -/

/-- Prefix transitivity for `listStarts`. -/
lemma listStarts_trans : ∀ {a b l : List Char}, listStarts a b = true →
    listStarts b l = true → listStarts a l = true
  | [], _, _, _, _ => rfl
  | x :: xs, y :: ys, z :: zs, h1, h2 => by
    simp only [listStarts, Bool.and_eq_true, decide_eq_true_eq] at h1 h2 ⊢
    exact ⟨h1.1.trans h2.1, listStarts_trans h1.2 h2.2⟩

/-- A substring occurrence of `b` yields one of any prefix `a` of `b`. -/
lemma listHas_mono {a b : List Char} (hab : listStarts a b = true) :
    ∀ {l : List Char}, listHas b l = true → listHas a l = true := by
  intro l
  induction l with
  | nil =>
    intro h
    simp only [listHas, List.isEmpty_iff] at h ⊢
    subst h
    cases a with
    | nil => rfl
    | cons x xs => exact absurd hab (by simp [listStarts])
  | cons c t ih =>
    intro h
    simp only [listHas, Bool.or_eq_true] at h ⊢
    rcases h with h | h
    · exact Or.inl (listStarts_trans hab h)
    · exact Or.inr (ih h)

/-- A word that only occurs as a superstring of the preceding word is
redundant in a keyword list: dropping it leaves `anyOccurs` unchanged. -/
lemma anyOccurs_cons_redundant (w v : String) (rest : List String)
    (h : listStarts w.toList v.toList = true) (l : List Char) :
    anyOccurs (w :: v :: rest) l = anyOccurs (w :: rest) l := by
  show (occurs w l || (occurs v l || anyOccurs rest l)) = (occurs w l || anyOccurs rest l)
  cases h2 : occurs v l
  · rw [Bool.false_or]
  · have hs : occurs w l = true := listHas_mono h h2
    rw [hs]
    rfl

/-- `'swimming'` is redundant after `'swim'`: the code's word list is
equivalent to the spec's. -/
lemma cond_swim (l : List Char) :
    anyOccurs ["swim", "swimming", "pool"] l = anyOccurs ["swim", "pool"] l :=
  anyOccurs_cons_redundant "swim" "swimming" ["pool"] (by decide) l

/-- `'walking'` is redundant after `'walk'`. -/
lemma cond_walk (l : List Char) :
    anyOccurs ["walk", "walking"] l = anyOccurs ["walk"] l :=
  anyOccurs_cons_redundant "walk" "walking" [] (by decide) l

/-- `'skiing'` is redundant after `'ski'`. -/
lemma cond_ski (l : List Char) :
    anyOccurs ["ski", "skiing"] l = anyOccurs ["ski"] l :=
  anyOccurs_cons_redundant "ski" "skiing" [] (by decide) l

/-- Modelled from the amended claim's words (C5): the same ordered scan with
the Hike category reading "hike/hiking/trail" — the word `hiking` is *not*
a superstring of `hike`, so it is not redundant and must be listed. -/
def specSportKeywordScanAmended (pl : List Char) : String :=
  if anyOccurs ["bike", "cycling", "cycle", "rode"] pl then "Ride"
  else if anyOccurs ["swim", "pool"] pl then "Swim"
  else if anyOccurs ["hike", "hiking", "trail"] pl then "Hike"
  else if anyOccurs ["walk"] pl then "Walk"
  else if anyOccurs ["yoga", "stretching"] pl then "Yoga"
  else if anyOccurs ["weight", "lifting", "gym", "strength"] pl then "WeightTraining"
  else if anyOccurs ["rowing", "row"] pl then "Rowing"
  else if anyOccurs ["ski"] pl then "CrossCountrySkiing"
  else if anyOccurs ["elliptical"] pl then "Elliptical"
  else "Run"

/-- The code's keyword chain computes exactly the amended spec scan. -/
lemma keywordSportScan_eq_spec (l : List Char) :
    keywordSportScan l = specSportKeywordScanAmended l := by
  unfold keywordSportScan specSportKeywordScanAmended
  rw [cond_swim, cond_walk, cond_ski]

/-- **C5 (amended).** On every successful fallback parse, `sport_type` is the
top knowledge-base match's `sport_type` when any match exists, and otherwise
the result of the ordered keyword scan over the lower-cased prompt with the
Hike category listing hike/hiking/trail (first matching category wins,
default `Run`). -/
theorem c5_fallback_sport_type (exMatches : List ExerciseMatch)
    (suggestFor : Option String → List Suggestion) (available : Bool) (prompt : String)
    (d : ParsedData)
    (h : fallbackParse exMatches suggestFor available prompt = .ok d) :
    d.sport_type = some (match exMatches with
      | m :: _ => m.sport_type
      | [] => specSportKeywordScanAmended (pyLower prompt)) := by
  unfold fallbackParse at h
  cases hf : findDurationMatch (pyLower prompt) with
  | none =>
    rw [hf] at h
    exact ParseResult.noConfusion h
  | some r =>
    obtain ⟨n, isH⟩ := r
    rw [hf] at h
    have hd : d = fallbackOk exMatches suggestFor available prompt n isH :=
      (ParseResult.ok.injEq _ _ ▸ h).symm
    subst hd
    show some (fallbackSport exMatches (pyLower prompt)) = _
    cases exMatches with
    | cons m rest => rfl
    | nil =>
      show some (keywordSportScan (pyLower prompt)) = _
      rw [keywordSportScan_eq_spec]

/-- Concrete parse result used by the C5 witness. -/
def c5Data : ParsedData :=
  { sport_type := some "Ride", duration_minutes := 30, distance_km := none, name := none
    description_style := "casual", confidence := 3 / 10, context := {}
    exercise_knowledge := none }

/-- Witness for C5 (amended) on the prompt `"30 minute bike ride"` with no
knowledge-base match. -/
theorem c5_witness :
    c5Data.sport_type = some (specSportKeywordScanAmended (pyLower "30 minute bike ride")) :=
  c5_fallback_sport_type noMatches noSuggestions false "30 minute bike ride" c5Data rfl

/-- Concrete parse result of the prompt `"went hiking for 30 minutes"`. -/
def c5HikeData : ParsedData :=
  { sport_type := some "Hike", duration_minutes := 30, distance_km := none, name := none
    description_style := "casual", confidence := 3 / 10, context := {}
    exercise_knowledge := none }

/-- Counterexample for C5 as stated: `hiking` does not contain `hike` as a
substring, so on the prompt `"went hiking for 30 minutes"` the code's scan
(which also lists `hiking`) returns `Hike` while the claim's ordered scan
with word lists "hike/trail" falls through to the default `Run`. -/
theorem c5_counterexample :
    fallbackParse noMatches noSuggestions false "went hiking for 30 minutes"
        = .ok c5HikeData ∧
      c5HikeData.sport_type = some "Hike" ∧
      specSportKeywordScan (pyLower "went hiking for 30 minutes") = "Run" ∧
      (some "Hike" : Option String) ≠ some "Run" :=
  ⟨rfl, rfl, by decide, by decide⟩

/-! ## Claim C1 -/

/-- **C1.** The acceptance gate of `create_activity_from_prompt` rejects a
successfully parsed result exactly when its confidence is strictly below
0.3 (so 0.3 itself is accepted), and on any successful parse the gate
rejection produces the "be more specific" error; the fallback parser always
emits confidence exactly 0.3, so every successful fallback parse passes the
gate. -/
theorem c1_gate_boundary (exMatches : List ExerciseMatch)
    (suggestFor : Option String → List Suggestion) (available : Bool) (prompt : String)
    (d : ParsedData)
    (hfb : fallbackParse exMatches suggestFor available prompt = .ok d) :
    (∀ d' : ParsedData, confidenceRejected d' = true ↔ d'.confidence < 3 / 10) ∧
      d.confidence = 3 / 10 ∧
      confidenceRejected d = false ∧
      (∀ (α : Type) (exM : List ExerciseMatch) (sf : Option String → List Suggestion)
          (av : Bool) (p : String) (aiR : AgentResponse) (nR dR : ChatOutcome) (now : String)
          (strava : ActivityData → Except String α) (d' : ParsedData),
        parse_activity_prompt exM sf av p aiR = .ok d' → confidenceRejected d' = true →
          create_activity_from_prompt exM sf av p aiR nR dR now strava = .error gateMessage) := by
  refine ⟨?_, ?_, ?_, ?_⟩
  · intro d'
    simp [confidenceRejected]
  · unfold fallbackParse at hfb
    cases hf : findDurationMatch (pyLower prompt) with
    | none =>
      rw [hf] at hfb
      exact ParseResult.noConfusion hfb
    | some r =>
      obtain ⟨n, isH⟩ := r
      rw [hf] at hfb
      have hd : d = fallbackOk exMatches suggestFor available prompt n isH :=
        (ParseResult.ok.injEq _ _ ▸ hfb).symm
      subst hd
      rfl
  · unfold fallbackParse at hfb
    cases hf : findDurationMatch (pyLower prompt) with
    | none =>
      rw [hf] at hfb
      exact ParseResult.noConfusion hfb
    | some r =>
      obtain ⟨n, isH⟩ := r
      rw [hf] at hfb
      have hd : d = fallbackOk exMatches suggestFor available prompt n isH :=
        (ParseResult.ok.injEq _ _ ▸ hfb).symm
      subst hd
      exact decide_eq_false (lt_irrefl ((3 : ℚ) / 10))
  · intro α exM sf av p aiR nR dR now strava d' hp hrej
    simp [create_activity_from_prompt, hp, hrej]

/-- Concrete parse result used by the C1 witness. -/
def c1Data : ParsedData :=
  { sport_type := some "Run", duration_minutes := 30, distance_km := none, name := none
    description_style := "casual", confidence := 3 / 10, context := {}
    exercise_knowledge := none }

/-- Witness for C1: the fallback parse of a concrete prompt has confidence
exactly 0.3 and is not rejected by the gate. -/
theorem c1_witness :
    c1Data.confidence = 3 / 10 ∧ confidenceRejected c1Data = false := by
  have h := c1_gate_boundary noMatches noSuggestions false "went for a 30 minute run" c1Data
    rfl
  exact ⟨h.2.1, h.2.2.1⟩

/-! ## Claim C6 -/

/-- A `submitResult` error can only come from the wrapped Strava outcome. -/
lemma submitResult_error {α : Type} (nm desc : String) (x : Except String α) (e : String)
    (h : submitResult nm desc x = .error e) : x = .error e := by
  cases x with
  | ok a => exact WorkflowResult.noConfusion h
  | error e' =>
    have : e' = e := by
      have := WorkflowResult.error.injEq (α := α) e' e ▸ h
      exact this
    rw [this]

/-- **C6.** Name and description generation never raise: whenever the
completion call does not deliver content, each returns its deterministic
templated fallback string (built from `sport_type`, `duration_minutes` and
the context), and a `create_quick_activity_with_ai` invocation can only
produce an error result when the Strava submission itself fails — never
because of generation. -/
theorem c6_generation_never_aborts (sport_type : String) (duration_minutes : ℤ)
    (distance_km : Option ℚ) (style : String) (context : Ctx) (r : ChatOutcome)
    (h : chatDelivers r = false) :
    (r = .exn →
      generate_activity_description_with_context sport_type duration_minutes distance_km style
          context r = descExnFallback sport_type duration_minutes ∧
        generate_activity_name_with_context sport_type duration_minutes distance_km context r
          = nameExnFallback sport_type) ∧
      (r ≠ .exn →
        generate_activity_description_with_context sport_type duration_minutes distance_km style
            context r = descContextFallback sport_type duration_minutes context ∧
          generate_activity_name_with_context sport_type duration_minutes distance_km context r
            = jokeFallback sport_type) ∧
      (∀ (α : Type) (name : Option String) (r1 r2 : ChatOutcome) (now : String)
          (strava : ActivityData → Except String α) (e : String),
        create_quick_activity_with_ai sport_type duration_minutes distance_km name style context
            r1 r2 now strava = .error e →
          ∃ data, strava data = .error e) := by
  refine ⟨?_, ?_, ?_⟩
  · rintro rfl
    exact ⟨rfl, rfl⟩
  · intro hne
    cases r with
    | exn => exact absurd rfl hne
    | response status body =>
      unfold generate_activity_description_with_context generate_activity_name_with_context
      by_cases hs : status = 200
      · subst hs
        cases body with
        | notJson => exact ⟨rfl, rfl⟩
        | envelope choices =>
          cases choices with
          | nil => exact ⟨rfl, rfl⟩
          | cons c cs =>
            cases c with
            | missingContent => exact ⟨rfl, rfl⟩
            | content s => exact absurd h (by simp [chatDelivers])
      · simp only [if_neg hs]
        exact ⟨trivial, trivial⟩
  · intro α name r1 r2 now strava e hres
    unfold create_quick_activity_with_ai at hres
    exact ⟨_, submitResult_error _ _ _ _ hres⟩

/-- Witness for C6 at a failing (HTTP 500) generation outcome. -/
theorem c6_witness :
    generate_activity_description_with_context "Run" 30 none "casual" emptyCtx
        (.response 500 (.envelope [])) = descContextFallback "Run" 30 emptyCtx ∧
      generate_activity_name_with_context "Run" 30 none emptyCtx
        (.response 500 (.envelope [])) = jokeFallback "Run" := by
  have h := c6_generation_never_aborts "Run" 30 none "casual" emptyCtx
    (.response 500 (.envelope [])) rfl
  exact h.2.1 (fun hh => ChatOutcome.noConfusion hh)

/-! ## Claim C4 -/

/-- **C4 (amended).** `parse_activity_prompt` never lets an exception reach
its caller: a transport-level failure, a non-2xx status, an undecodable
response body, an unusable first choice, a JSON-decode failure on non-empty
content, a non-object content value, and a duration-validation failure all
route to the fallback parser.  However, a 2xx response whose decoded
envelope has no (or an empty) `choices` array returns the direct error
`"AI returned invalid response structure"`, and a first choice whose content
strips to the empty string returns the direct error
`"AI returned empty response"` — neither invokes the fallback parser.
Every outcome yields the fallback's result, an error result, or a success. -/
theorem c4_model_failure_routing (exMatches : List ExerciseMatch)
    (suggestFor : Option String → List Suggestion) (available : Bool) (prompt : String) :
    (parse_activity_prompt exMatches suggestFor available prompt .exn
        = fallbackParse exMatches suggestFor available prompt) ∧
      (∀ status body, status ≠ 200 →
        parse_activity_prompt exMatches suggestFor available prompt (.response status body)
          = fallbackParse exMatches suggestFor available prompt) ∧
      (parse_activity_prompt exMatches suggestFor available prompt (.response 200 .notJson)
        = fallbackParse exMatches suggestFor available prompt) ∧
      (∀ cs, parse_activity_prompt exMatches suggestFor available prompt
          (.response 200 (.envelope (.missingContent :: cs)))
        = fallbackParse exMatches suggestFor available prompt) ∧
      (∀ raw cs, (pyStrip raw.toList).isEmpty = false →
        parse_activity_prompt exMatches suggestFor available prompt
            (.response 200 (.envelope (.content raw .decodeError :: cs)))
          = fallbackParse exMatches suggestFor available prompt) ∧
      (∀ raw cs, (pyStrip raw.toList).isEmpty = false →
        parse_activity_prompt exMatches suggestFor available prompt
            (.response 200 (.envelope (.content raw .nonObject :: cs)))
          = fallbackParse exMatches suggestFor available prompt) ∧
      (∀ raw o cs, (pyStrip raw.toList).isEmpty = false →
        validDuration o.duration_minutes = none →
        parse_activity_prompt exMatches suggestFor available prompt
            (.response 200 (.envelope (.content raw (.object o) :: cs)))
          = fallbackParse exMatches suggestFor available prompt) ∧
      (parse_activity_prompt exMatches suggestFor available prompt
          (.response 200 (.envelope [])) = .err envelopeErrorMsg) ∧
      (∀ raw pc cs, (pyStrip raw.toList).isEmpty = true →
        parse_activity_prompt exMatches suggestFor available prompt
            (.response 200 (.envelope (.content raw pc :: cs)))
          = .err emptyContentMsg) ∧
      (∀ resp, parse_activity_prompt exMatches suggestFor available prompt resp
          = fallbackParse exMatches suggestFor available prompt ∨
        (∃ m, parse_activity_prompt exMatches suggestFor available prompt resp = .err m) ∨
        (∃ d, parse_activity_prompt exMatches suggestFor available prompt resp = .ok d)) := by
  refine ⟨rfl, ?_, rfl, fun cs => rfl, ?_, ?_, ?_, rfl, ?_, ?_⟩
  · intro status body hs
    unfold parse_activity_prompt
    simp only [if_neg hs]
  · intro raw cs he
    unfold parse_activity_prompt
    simp only [he]
    rfl
  · intro raw cs he
    unfold parse_activity_prompt
    simp only [he]
    rfl
  · intro raw o cs he hv
    unfold parse_activity_prompt
    simp only [he, hv]
    rfl
  · intro raw pc cs he
    unfold parse_activity_prompt
    simp only [he]
    rfl
  · intro resp
    cases resp with
    | exn => exact Or.inl rfl
    | response status body =>
      by_cases hs : status = 200
      · subst hs
        cases body with
        | notJson => exact Or.inl rfl
        | envelope choices =>
          cases choices with
          | nil => exact Or.inr (Or.inl ⟨envelopeErrorMsg, rfl⟩)
          | cons c cs =>
            cases c with
            | missingContent => exact Or.inl rfl
            | content raw pc =>
              by_cases he : (pyStrip raw.toList).isEmpty = true
              · refine Or.inr (Or.inl ⟨emptyContentMsg, ?_⟩)
                unfold parse_activity_prompt
                simp only [he]
                rfl
              · rw [Bool.not_eq_true] at he
                cases pc with
                | decodeError =>
                  refine Or.inl ?_
                  unfold parse_activity_prompt
                  simp only [he]
                  rfl
                | nonObject =>
                  refine Or.inl ?_
                  unfold parse_activity_prompt
                  simp only [he]
                  rfl
                | object o =>
                  cases hv : validDuration o.duration_minutes with
                  | none =>
                    refine Or.inl ?_
                    unfold parse_activity_prompt
                    simp only [he, hv]
                    rfl
                  | some q =>
                    refine Or.inr (Or.inr ⟨aiParsed exMatches suggestFor available o q, ?_⟩)
                    unfold parse_activity_prompt
                    simp only [he, hv]
                    rfl
      · exact Or.inl (by unfold parse_activity_prompt; simp only [if_neg hs])

/-- Concrete parse result used by the C4 counterexample. -/
def c4Data : ParsedData :=
  { sport_type := some "Run", duration_minutes := 30, distance_km := none, name := none
    description_style := "casual", confidence := 3 / 10, context := {}
    exercise_knowledge := none }

/-- Counterexample for C4 as stated: a 2xx response whose JSON envelope has
no `choices` entry is a malformed envelope, yet `parse_activity_prompt`
returns a direct error instead of routing to the fallback parser (which
would have succeeded on this prompt). -/
theorem c4_counterexample :
    parse_activity_prompt noMatches noSuggestions false "went for a 30 minute run"
        (.response 200 (.envelope [])) = .err envelopeErrorMsg ∧
      fallbackParse noMatches noSuggestions false "went for a 30 minute run" = .ok c4Data ∧
      ParseResult.err envelopeErrorMsg ≠ ParseResult.ok c4Data :=
  ⟨rfl, rfl, fun hh => ParseResult.noConfusion hh⟩

/-- Witness for C4 (amended): a transport-level failure routes to the
fallback parser. -/
theorem c4_witness :
    parse_activity_prompt noMatches noSuggestions false "morning jog" .exn
      = fallbackParse noMatches noSuggestions false "morning jog" :=
  (c4_model_failure_routing noMatches noSuggestions false "morning jog").1

/-! ## Claim C2 -/

/-- `listStarts w (w ++ r)` always holds. -/
lemma listStarts_append : ∀ (w r : List Char), listStarts w (w ++ r) = true
  | [], _ => rfl
  | c :: t, r => by simp [listStarts, listStarts_append t r]

/-- Dropping while a predicate holds skips a run on which it holds. -/
lemma dropWhile_all {p : Char → Bool} :
    ∀ (ds r : List Char), (∀ c ∈ ds, p c = true) →
      (ds ++ r).dropWhile p = r.dropWhile p
  | [], _, _ => rfl
  | d :: t, r, h => by
    simp only [List.cons_append, List.dropWhile_cons, h d (List.mem_cons_self _ _), if_true]
    exact dropWhile_all t r (fun c hc => h c (List.mem_cons_of_mem _ hc))

/-- `dropWhile` leaves a list whose head fails the predicate unchanged. -/
lemma dropWhile_cons_false {p : Char → Bool} {c : Char} {t : List Char} (h : p c = false) :
    (c :: t).dropWhile p = c :: t := by
  simp [List.dropWhile_cons, h]

/-- Taking while a predicate holds keeps a run on which it holds. -/
lemma takeWhile_all {p : Char → Bool} :
    ∀ (ds r : List Char), (∀ c ∈ ds, p c = true) →
      (ds ++ r).takeWhile p = ds ++ r.takeWhile p
  | [], _, _ => rfl
  | d :: t, r, h => by
    simp only [List.cons_append, List.takeWhile_cons, h d (List.mem_cons_self _ _), if_true]
    rw [takeWhile_all t r (fun c hc => h c (List.mem_cons_of_mem _ hc))]

/-- `takeWhile` of a list whose head fails the predicate is empty. -/
lemma takeWhile_cons_false {p : Char → Bool} {c : Char} {t : List Char} (h : p c = false) :
    (c :: t).takeWhile p = [] := by
  simp [List.takeWhile_cons, h]

/-- A whitespace character is not a digit. -/
lemma space_not_digit {c : Char} (h : pyIsSpace c = true) : c.isDigit = false := by
  simp only [pyIsSpace, Bool.or_eq_true, decide_eq_true_eq] at h
  rcases h with ((((rfl | rfl) | rfl) | rfl) | rfl) | rfl <;> rfl

/-- Every unit token starts with a letter that is neither a digit nor
whitespace. -/
lemma unit_head {u : List Char} (hu : u ∈ unitTokens) :
    ∃ c t, u = c :: t ∧ c.isDigit = false ∧ pyIsSpace c = false := by
  simp only [unitTokens, List.mem_cons, List.not_mem_nil, or_false] at hu
  rcases hu with rfl | rfl | rfl | rfl
  · exact ⟨'m', _, rfl, rfl, rfl⟩
  · exact ⟨'m', _, rfl, rfl, rfl⟩
  · exact ⟨'h', _, rfl, rfl, rfl⟩
  · exact ⟨'h', _, rfl, rfl, rfl⟩

/-- The unit alternation matches at the head of `u ++ post` for every unit
token `u` (if `u` is `min` the matched literal may be `minute`, which makes
no difference to the hour test there). -/
lemma durUnitAt_some {u : List Char} (post : List Char) (hu : u ∈ unitTokens) :
    ∃ b, durUnitAt (u ++ post) = some b := by
  simp only [unitTokens, List.mem_cons, List.not_mem_nil, or_false] at hu
  rcases hu with rfl | rfl | rfl | rfl
  · exact ⟨false, rfl⟩
  · unfold durUnitAt
    by_cases h1 : listStarts "minute".toList ("min".toList ++ post) = true
    · rw [if_pos h1]
      exact ⟨false, rfl⟩
    · rw [if_neg h1, if_pos (listStarts_append "min".toList post)]
      exact ⟨false, rfl⟩
  · exact ⟨true, rfl⟩
  · exact ⟨true, rfl⟩

/-- The anchored duration attempt succeeds at the head of a decomposition
`digits ++ whitespace ++ unit ++ rest`. -/
lemma durTokenAt_decomp (ds ws u post : List Char)
    (hdig : ∀ c ∈ ds, c.isDigit = true) (hws : ∀ c ∈ ws, pyIsSpace c = true)
    (hu : u ∈ unitTokens) :
    ∃ r, durTokenAt (ds ++ (ws ++ (u ++ post))) = some r := by
  obtain ⟨c0, t0, hu0, hcd, hcs⟩ := unit_head hu
  have hUpost : u ++ post = c0 :: (t0 ++ post) := by rw [hu0]; rfl
  have hdrop1 : (ws ++ (u ++ post)).dropWhile Char.isDigit = ws ++ (u ++ post) := by
    cases ws with
    | nil =>
      simp only [List.nil_append]
      rw [hUpost]
      exact dropWhile_cons_false hcd
    | cons w ws' =>
      exact dropWhile_cons_false (space_not_digit (hws w (List.mem_cons_self _ _)))
  have hdrop2 : (ws ++ (u ++ post)).dropWhile pyIsSpace = u ++ post := by
    rw [dropWhile_all ws (u ++ post) hws, hUpost]
    exact dropWhile_cons_false hcs
  have htake : (ds ++ (ws ++ (u ++ post))).takeWhile Char.isDigit = ds := by
    rw [takeWhile_all ds (ws ++ (u ++ post)) hdig]
    have : (ws ++ (u ++ post)).takeWhile Char.isDigit = [] := by
      cases ws with
      | nil =>
        simp only [List.nil_append]
        rw [hUpost]
        exact takeWhile_cons_false hcd
      | cons w ws' =>
        exact takeWhile_cons_false (space_not_digit (hws w (List.mem_cons_self _ _)))
    rw [this, List.append_nil]
  obtain ⟨b, hb⟩ := durUnitAt_some post hu
  refine ⟨(natOfDigits ds, b), ?_⟩
  unfold durTokenAt
  rw [dropWhile_all ds (ws ++ (u ++ post)) hdig, hdrop1, hdrop2, hb, htake]

/-- The leftmost scan finds a match on every list containing a duration
token. -/
lemma findDurationMatch_decomp :
    ∀ (pre ds ws u post : List Char), ds ≠ [] →
      (∀ c ∈ ds, c.isDigit = true) → (∀ c ∈ ws, pyIsSpace c = true) → u ∈ unitTokens →
      ∃ r, findDurationMatch (pre ++ (ds ++ (ws ++ (u ++ post)))) = some r := by
  intro pre
  induction pre with
  | nil =>
    intro ds ws u post hds hdig hws hu
    obtain ⟨d, dt, rfl⟩ : ∃ d dt, ds = d :: dt := by
      cases ds with
      | nil => exact absurd rfl hds
      | cons d dt => exact ⟨d, dt, rfl⟩
    obtain ⟨r, hr⟩ := durTokenAt_decomp (d :: dt) ws u post hdig hws hu
    rw [List.cons_append] at hr
    refine ⟨r, ?_⟩
    simp only [List.nil_append, List.cons_append]
    unfold findDurationMatch
    rw [hdig d (List.mem_cons_self _ _), hr]
    rfl
  | cons c pre' ih =>
    intro ds ws u post hds hdig hws hu
    obtain ⟨r, hr⟩ := ih ds ws u post hds hdig hws hu
    simp only [List.cons_append]
    unfold findDurationMatch
    by_cases hc : c.isDigit = true
    · rw [hc]
      cases hda : durTokenAt (c :: (pre' ++ (ds ++ (ws ++ (u ++ post))))) with
      | some r2 => exact ⟨r2, rfl⟩
      | none => exact ⟨r, hr⟩
    · rw [Bool.not_eq_true] at hc
      rw [hc]
      exact ⟨r, hr⟩

/-- **C2 (amended).** For every prompt containing an integer immediately
followed (up to whitespace) by a unit token `minute`/`min`/`hr`/`hour`, the
duration regex finds a (leftmost) match, and the fallback parser returns
`status=success` with confidence exactly 0.3 and `duration_minutes` equal
to the *leftmost* matched token's value — multiplied by 60 exactly when
that token's unit is `hr`/`hour`. -/
theorem c2_fallback_duration (exMatches : List ExerciseMatch)
    (suggestFor : Option String → List Suggestion) (available : Bool) (p : String)
    (n : ℕ) (isHour : Bool) (h : containsDurationToken p n isHour) :
    (findDurationMatch (pyLower p)).isSome = true ∧
      ∀ n' isH, findDurationMatch (pyLower p) = some (n', isH) →
        fallbackParse exMatches suggestFor available p
            = .ok (fallbackOk exMatches suggestFor available p n' isH) ∧
          (fallbackOk exMatches suggestFor available p n' isH).duration_minutes
            = (if isH then (n' : ℚ) * 60 else (n' : ℚ)) ∧
          (fallbackOk exMatches suggestFor available p n' isH).confidence = 3 / 10 := by
  constructor
  · obtain ⟨pre, ds, ws, u, post, heq, hds, hdig, hws, hmax, hu, hn, hhr⟩ := h
    rw [heq]
    obtain ⟨r, hr⟩ := findDurationMatch_decomp pre ds ws u post hds hdig hws hu
    rw [hr]
    rfl
  · intro n' isH hscan
    refine ⟨?_, rfl, rfl⟩
    unfold fallbackParse
    rw [hscan]

/-- Concrete parse result of the prompt `"10 min 2 hour"`. -/
def c2Data : ParsedData :=
  { sport_type := some "Run", duration_minutes := 10, distance_km := none, name := none
    description_style := "casual", confidence := 3 / 10, context := {}
    exercise_knowledge := none }

/-- Counterexample for C2 as stated: the prompt `"10 min 2 hour"` contains
the integer 2 immediately followed by the unit token `hour`, so the claim
requires `duration_minutes = 2 × 60 = 120`; the fallback parser instead
returns the leftmost token's value, 10. -/
theorem c2_counterexample :
    containsDurationToken "10 min 2 hour" 2 true ∧
      fallbackParse noMatches noSuggestions false "10 min 2 hour" = .ok c2Data ∧
      c2Data.duration_minutes = 10 ∧
      (10 : ℚ) ≠ (2 : ℚ) * 60 := by
  refine ⟨?_, rfl, rfl, by norm_num⟩
  exact ⟨"10 min ".toList, "2".toList, " ".toList, "hour".toList, "".toList,
    by decide, by decide, by decide, by decide, by decide, by decide, by decide, by decide⟩

/-- Witness for C2 (amended) on the prompt `"went for a 30 minute run"`. -/
theorem c2_witness :
    (findDurationMatch (pyLower "went for a 30 minute run")).isSome = true ∧
      fallbackParse noMatches noSuggestions false "went for a 30 minute run"
        = .ok (fallbackOk noMatches noSuggestions false "went for a 30 minute run" 30 false) := by
  have h := c2_fallback_duration noMatches noSuggestions false "went for a 30 minute run" 30 false
    ⟨"went for a ".toList, "30".toList, " ".toList, "minute".toList, " run".toList,
      by decide, by decide, by decide, by decide, by decide, by decide, by decide, by decide⟩
  exact ⟨h.1, (h.2 30 false (by decide)).1⟩

/-! ## Claim C7 -/

/-- The `elapsed_time` field assembled by the workflow. -/
lemma quickActivityData_elapsed (nm sp now ds : String) (dur : ℤ) (dist : Option ℚ) :
    (quickActivityData nm sp now ds dur dist).elapsed_time = dur * 60 := rfl

/-- The `distance` field assembled by the workflow. -/
lemma quickActivityData_distance (nm sp now ds : String) (dur : ℤ) (dist : Option ℚ) :
    (quickActivityData nm sp now ds dur dist).distance
      = if numTruthy dist then dist.map (· * 1000) else none := rfl

/-- **C7 (amended).** For every accepted parse result (parse succeeded, gate
passed, sport type present), the ActivityRecord the workflow submits has
`elapsed_time = int(duration_minutes) × 60` — the duration is truncated to
an integer first — and carries `distance = distance_km × 1000` exactly when
`distance_km` is present *and nonzero*; an absent or zero `distance_km`
yields no distance field. -/
theorem c7_record_fields (exM : List ExerciseMatch) (sf : Option String → List Suggestion)
    (av : Bool) (prompt : String) (aiResp : AgentResponse) (nR dR : ChatOutcome) (now : String)
    (d : ParsedData) (sp : String) (a : ActivityData) (nm ds : String)
    (info : Option ParsingInfo)
    (hparse : parse_activity_prompt exM sf av prompt aiResp = .ok d)
    (hacc : confidenceRejected d = false)
    (hsp : d.sport_type = some sp)
    (hres : create_activity_from_prompt exM sf av prompt aiResp nR dR now
        (Except.ok : ActivityData → Except String ActivityData) = .success a nm ds info) :
    a.elapsed_time = pyInt d.duration_minutes * 60 ∧
      (∀ x, d.distance_km = some x → x ≠ 0 → a.distance = some (x * 1000)) ∧
      (d.distance_km = none → a.distance = none) ∧
      (d.distance_km = some 0 → a.distance = none) := by
  simp only [create_activity_from_prompt, hparse, hacc, Bool.false_eq_true, if_false, hsp,
    create_quick_activity_with_ai, submitResult] at hres
  rw [WorkflowResult.success.injEq] at hres
  obtain ⟨ha, -, -, -⟩ := hres
  subst ha
  refine ⟨quickActivityData_elapsed _ _ _ _ _ _, ?_, ?_, ?_⟩
  · intro x hx hx0
    rw [quickActivityData_distance, hx]
    have ht : numTruthy (some x) = true := by simp [numTruthy, hx0]
    rw [ht]
    simp
  · intro hx
    rw [quickActivityData_distance, hx]
    rfl
  · intro hx
    rw [quickActivityData_distance, hx]
    simp [numTruthy]

/-- The rational 30.5, written in lowest terms so that the embedded
operations evaluate on it. -/
def c7dur : ℚ := ⟨61, 2, by norm_num, by norm_num⟩

/-- `c7dur` is 61/2 = 30.5. -/
lemma c7dur_eq : c7dur = 61 / 2 := by
  have h1 : c7dur = Rat.divInt 61 ((2 : ℕ) : ℤ) := Rat.mk'_eq_divInt
  rw [h1, Rat.divInt_eq_div]
  push_cast
  ring

/-- Prompt of the C7 scenario (only routed, never re-parsed, on this path). -/
def c7prompt : String := "ran around the block for a while"

/-- The completion content of the C7 scenario (braces written as escapes). -/
def c7raw : String := "\x7b\"sport_type\": \"Run\", \"duration_minutes\": 30.5, \"distance_km\": 0, \"confidence\": 0.5\x7d"

/-- The decoded model object of the C7 scenario: a valid fractional duration
and a present-but-zero distance. -/
def c7obj : AIObj :=
  { sport_type := some "Run", duration_minutes := some (.num c7dur), distance_km := some 0
    name := none, description_style := none, confidence := some (5 / 10), context := none }

/-- The C7 model-path response: HTTP 200 with the object above. -/
def c7resp : AgentResponse := .response 200 (.envelope [.content c7raw (.object c7obj)])

/-- The parse result of the C7 scenario. -/
def c7data : ParsedData :=
  { sport_type := some "Run", duration_minutes := c7dur, distance_km := some 0, name := none
    description_style := "casual", confidence := 5 / 10, context := {}
    exercise_knowledge := none }

/-- The C7 scenario parses successfully to `c7data`. -/
lemma c7_parse_eval :
    parse_activity_prompt noMatches noSuggestions false c7prompt c7resp = .ok c7data := rfl

/-- Confidence 0.5 passes the gate. -/
lemma c7_gate_eval : confidenceRejected c7data = false := by
  unfold confidenceRejected
  exact decide_eq_false (by norm_num : ¬((5 : ℚ) / 10 < 3 / 10))

/-- Start time used in the C7 scenario. -/
def c7now : String := "2026-10-12T08:00:00"

/-- The record the workflow submits in the C7 scenario. -/
def c7record : ActivityData :=
  quickActivityData (nameExnFallback "Run") "Run" c7now (descExnFallback "Run" 30) 30 (some 0)

/-- Full evaluation of the workflow on the C7 scenario (generation fails, the
Strava call succeeds and returns the submitted record). -/
lemma c7_workflow_eval :
    create_activity_from_prompt noMatches noSuggestions false c7prompt c7resp .exn .exn c7now
        (Except.ok : ActivityData → Except String ActivityData)
      = .success c7record (nameExnFallback "Run") (descExnFallback "Run" 30)
          (some ⟨c7prompt, c7data, 5 / 10⟩) := by
  simp only [create_activity_from_prompt, c7_parse_eval, c7_gate_eval, Bool.false_eq_true,
    if_false]
  rfl

/-- Counterexample for C7 as stated: an accepted parse result with
`duration_minutes = 30.5` and `distance_km = 0` (present) is assembled into
a record whose `elapsed_time` is 1800 ≠ 30.5 × 60 = 1830 seconds, and which
carries no distance field at all. -/
theorem c7_counterexample :
    parse_activity_prompt noMatches noSuggestions false c7prompt c7resp = .ok c7data ∧
      confidenceRejected c7data = false ∧
      c7data.distance_km = some 0 ∧
      create_activity_from_prompt noMatches noSuggestions false c7prompt c7resp .exn .exn c7now
          (Except.ok : ActivityData → Except String ActivityData)
        = .success c7record (nameExnFallback "Run") (descExnFallback "Run" 30)
            (some ⟨c7prompt, c7data, 5 / 10⟩) ∧
      ((c7record.elapsed_time : ℚ) ≠ c7data.duration_minutes * 60) ∧
      c7record.distance = none := by
  refine ⟨c7_parse_eval, c7_gate_eval, rfl, c7_workflow_eval, ?_, rfl⟩
  show ((30 * 60 : ℤ) : ℚ) ≠ c7dur * 60
  rw [c7dur_eq]
  norm_num

/-- Witness for C7 (amended) on the same concrete scenario. -/
theorem c7_witness :
    c7record.elapsed_time = pyInt c7data.duration_minutes * 60 ∧ c7record.distance = none := by
  have h := c7_record_fields noMatches noSuggestions false c7prompt c7resp .exn .exn c7now
    c7data "Run" c7record (nameExnFallback "Run") (descExnFallback "Run" 30)
    (some ⟨c7prompt, c7data, 5 / 10⟩) c7_parse_eval c7_gate_eval rfl c7_workflow_eval
  exact ⟨h.1, h.2.2.2 rfl⟩

end CreateActivity
